import Mathlib

/-! Process audit recorders: a shallow embedding.

Embedding of `internal/app/pipeline/process/activity.go` (package `process`) and
`internal/app/pipeline/process/activity/activity.go` (package `activty`).

The workflow engine is an external collaborator.  Its observable behaviour is
represented by an explicit state, `Engine`, threaded through every operation:

* `workflow.GetInfo`   reads the execution info,
* `workflow.Now`       reads the deterministic clock,
* `workflow.ExecuteActivity(..).Get(..)` appends the (name, input) pair to the
  list of dispatched calls, blocks, and yields the error the engine decides on,
* `Warnf` on the engine logger appends a line to the list of warnings.

Go values are represented as follows: `string` is `String`, `time.Time` is an
instant on a linear scale (`Int`), `*time.Time` is `Option Time`, an `error`
interface value is `Option GoError` (`none` is `nil`), `uint` is `Nat` and
`int32` is `Int` with the wrap-around made explicit in `int32`.  A Go field named
`Type` is written `Type_`, since `Type` is reserved.
-/

/-- An instant of `time.Time`, as a count of clock units. -/
abbrev Time := Int

/-- A non-nil Go `error` value: `tag` stands for its dynamic identity, `text` is
the string its `Error()` method returns. -/
structure GoError where
  tag : Nat
  text : String
deriving DecidableEq, Repr

/-- The `Error()` method of a non-nil error. -/
def GoError.Error (e : GoError) : String := e.text

/-- Go conversion `int32(x)` of an unsigned word: keep the low 32 bits and read
them as a two's-complement number. -/
def int32 (x : Nat) : Int :=
  if x % 2 ^ 32 < 2 ^ 31 then ((x % 2 ^ 32 : Nat) : Int)
  else ((x % 2 ^ 32 : Nat) : Int) - 2 ^ 32

namespace workflow

/-- Cadence `WorkflowExecution`: the fields the recorders read. -/
structure WorkflowExecution where
  ID : String
  RunID : String
deriving DecidableEq, Repr

/-- Cadence `WorkflowType`. -/
structure WorkflowType where
  Name : String
deriving DecidableEq, Repr

/-- Cadence `WorkflowInfo`: the fields the recorders read.  A nil
`ParentWorkflowExecution` pointer is `none`. -/
structure WorkflowInfo where
  WorkflowExecution : workflow.WorkflowExecution
  ParentWorkflowExecution : Option workflow.WorkflowExecution
  WorkflowType : workflow.WorkflowType
deriving DecidableEq, Repr

end workflow

namespace process

/-- Source: `type Status string`. -/
structure Status where
  val : String
deriving DecidableEq, Repr

/-- Source: `Running Status = "running"`. -/
def Running : Status := ⟨"running"⟩
/-- Source: `Failed Status = "failed"`. -/
def Failed : Status := ⟨"failed"⟩
/-- Source: `Finished Status = "finished"`. -/
def Finished : Status := ⟨"finished"⟩

/-- Source: `const ProcessLogActivityName`. -/
def ProcessLogActivityName : String := "process-log"
/-- Source: `const ProcessEventActivityName`. -/
def ProcessEventActivityName : String := "process-event"

/-- Source: `type ProcessLogActivityInput struct`. -/
structure ProcessLogActivityInput where
  ID : String
  ParentID : String
  OrgID : Int
  Type_ : String
  Log : String
  ResourceID : String
  Status : Status
  StartedAt : Time
  FinishedAt : Option Time
deriving DecidableEq, Repr

/-- Source: `type ProcessEventActivityInput struct`. -/
structure ProcessEventActivityInput where
  ProcessID : String
  Type_ : String
  Log : String
  Status : Status
  Timestamp : Time
deriving DecidableEq, Repr

/-- Modelled from the spec: the type `ProcessStatus` of package `process` is
declared outside the given sources; it is the status of a stored record, a
string type that `Status` converts to. -/
structure ProcessStatus where
  val : String
deriving DecidableEq, Repr

/-- Modelled from the spec: the entity `Process` of package `process` is declared
outside the given sources.  The fields are those the two activities assign;
a field a composite literal leaves out has its zero value. -/
structure Process where
  Id : String := ""
  ParentId : String := ""
  OrgId : Int := 0
  Name : String := ""
  Type_ : String := ""
  Log : String := ""
  ResourceId : String := ""
  Status : ProcessStatus := ⟨""⟩
  StartedAt : Time := 0
  FinishedAt : Option Time := none
deriving DecidableEq, Repr

/-- Modelled from the spec: the entity `ProcessEvent` of package `process` is
declared outside the given sources.  The fields are those the two activities
assign; a field a composite literal leaves out has its zero value. -/
structure ProcessEvent where
  ProcessId : String := ""
  Name : String := ""
  Type_ : String := ""
  Log : String := ""
  Status : ProcessStatus := ⟨""⟩
  Timestamp : Time := 0
deriving DecidableEq, Repr

/-- Modelled from the spec: the interface `Service` of package `process` is
declared outside the given sources.  `LogProcess(context, Process)` and
`LogProcessEvent(context, ProcessEvent)` each return an identifier and an error;
`σ` is the state behind the service boundary, `ι` the type of the identifier. -/
structure Service (σ ι : Type) where
  LogProcess : Process → σ → (ι × Option GoError) × σ
  LogProcessEvent : ProcessEvent → σ → (ι × Option GoError) × σ

/-- A call received by the service. -/
inductive ServiceCall where
  | LogProcess (p : Process)
  | LogProcessEvent (e : ProcessEvent)
deriving DecidableEq, Repr

/-- A service stub that answers as `svc` does and keeps the list of the calls it
received, in order. -/
def Service.recording {σ ι : Type} (svc : Service σ ι) : Service (σ × List ServiceCall) ι where
  LogProcess := fun p s =>
    ((svc.LogProcess p s.1).1, ((svc.LogProcess p s.1).2, s.2 ++ [ServiceCall.LogProcess p]))
  LogProcessEvent := fun e s =>
    ((svc.LogProcessEvent e s.1).1,
      ((svc.LogProcessEvent e s.1).2, s.2 ++ [ServiceCall.LogProcessEvent e]))

/-- Source: `type ProcessLogActivity struct { service Service }`. -/
structure ProcessLogActivity (σ ι : Type) where
  service : Service σ ι

/-- Source: `func NewProcessLogActivity(service Service) ProcessLogActivity`. -/
def NewProcessLogActivity {σ ι : Type} (service : Service σ ι) : ProcessLogActivity σ ι :=
  { service := service }

/-- Source: `func (a ProcessLogActivity) ExecuteProcessLog(ctx, input) error`. -/
def ProcessLogActivity.ExecuteProcessLog {σ ι : Type} (a : ProcessLogActivity σ ι)
    (input : ProcessLogActivityInput) (s : σ) : Option GoError × σ :=
  let r := a.service.LogProcess
    { Id := input.ID
      ParentId := input.ParentID
      OrgId := input.OrgID
      Type_ := input.Type_
      Log := input.Log
      ResourceId := input.ResourceID
      Status := ProcessStatus.mk input.Status.val
      StartedAt := input.StartedAt
      FinishedAt := input.FinishedAt } s
  (r.1.2, r.2)

/-- Source: `func (a ProcessLogActivity) ExecuteProcessEvent(ctx, input) error`. -/
def ProcessLogActivity.ExecuteProcessEvent {σ ι : Type} (a : ProcessLogActivity σ ι)
    (input : ProcessEventActivityInput) (s : σ) : Option GoError × σ :=
  let r := a.service.LogProcessEvent
    { ProcessId := input.ProcessID
      Type_ := input.Type_
      Log := input.Log
      Status := ProcessStatus.mk input.Status.val
      Timestamp := input.Timestamp } s
  (r.1.2, r.2)

end process

namespace workflow

/-- The argument of a dispatched activity call: the recorders dispatch values of
these two types. -/
inductive ActivityInput where
  | processLog (input : process.ProcessLogActivityInput)
  | processEvent (input : process.ProcessEventActivityInput)
deriving DecidableEq, Repr

/-- State of the workflow engine as seen by workflow code through a
`workflow.Context`.  `tick` counts the points at which the workflow has blocked
so far; `clock t` is the deterministic time after `t` such points, and
`outcome t` is the error (or nil) with which the engine resolves the activity
dispatched at tick `t`. -/
structure Engine where
  info : WorkflowInfo
  clock : Nat → Time
  outcome : Nat → Option GoError
  tick : Nat
  dispatched : List (String × ActivityInput)
  warnings : List String

/-- An execution that has not blocked, dispatched or logged yet. -/
def Engine.start (info : WorkflowInfo) (clock : Nat → Time) (outcome : Nat → Option GoError) :
    Engine :=
  { info := info, clock := clock, outcome := outcome, tick := 0, dispatched := [], warnings := [] }

/-- Cadence `workflow.GetInfo(ctx)`. -/
def GetInfo (w : Engine) : WorkflowInfo := w.info

/-- Cadence `workflow.Now(ctx)`: the deterministic clock; reading does not move it. -/
def Now (w : Engine) : Time := w.clock w.tick

/-- Cadence `workflow.ExecuteActivity(ctx, name, input).Get(ctx, nil)`: the
call is recorded, the workflow blocks, and the engine's verdict is returned. -/
def ExecuteActivity (name : String) (input : ActivityInput) (w : Engine) :
    Option GoError × Engine :=
  (w.outcome w.tick,
    { w with tick := w.tick + 1, dispatched := w.dispatched ++ [(name, input)] })

/-- Cadence `workflow.GetLogger(ctx).Sugar().Warnf(..)` with the message already
formatted. -/
def Warnf (msg : String) (w : Engine) : Engine :=
  { w with warnings := w.warnings ++ [msg] }

end workflow

namespace process

open workflow

/-- Source: `type ProcessLog struct`.  The `ctx` field is the handle to the
engine, whose state is passed explicitly. -/
structure ProcessLog where
  activityInput : ProcessLogActivityInput
deriving DecidableEq, Repr

/-- Source: `func (p *ProcessLog) End(err error)`.  The receiver is updated in
place: the updated recorder is returned with the engine state. -/
def ProcessLog.End (p : ProcessLog) (err : Option GoError) (w : Engine) : ProcessLog × Engine :=
  let finishedAt := Now w
  let a := { p.activityInput with FinishedAt := some finishedAt }
  let a := match err with
    | some e => { a with Status := Failed, Log := e.Error }
    | none => { a with Status := Finished }
  let r := ExecuteActivity ProcessLogActivityName (ActivityInput.processLog a) w
  let w := match r.1 with
    | some e => Warnf ("failed to log process end: " ++ e.Error) r.2
    | none => r.2
  ({ activityInput := a }, w)

/-- Source: `func NewProcessLog(ctx workflow.Context, orgID uint, resourceID string) ProcessLog`.
The composite literal leaves `Log` and `FinishedAt` out: they are "" and nil. -/
def NewProcessLog (orgID : Nat) (resourceID : String) (w : Engine) : ProcessLog × Engine :=
  let winfo := GetInfo w
  let parentID := match winfo.ParentWorkflowExecution with
    | some parent => parent.ID
    | none => ""
  let activityInput : ProcessLogActivityInput :=
    { ID := winfo.WorkflowExecution.ID
      ParentID := parentID
      Type_ := winfo.WorkflowType.Name
      StartedAt := Now w
      Status := Running
      OrgID := int32 orgID
      ResourceID := resourceID
      Log := ""
      FinishedAt := none }
  let r := ExecuteActivity ProcessLogActivityName (ActivityInput.processLog activityInput) w
  let w := match r.1 with
    | some e => Warnf ("failed to log process: " ++ e.Error) r.2
    | none => r.2
  ({ activityInput := activityInput }, w)

/-- Source: `type ProcessEventLog struct`.  The `ctx` field is the handle to the
engine, whose state is passed explicitly. -/
structure ProcessEventLog where
  activityInput : ProcessEventActivityInput
deriving DecidableEq, Repr

/-- Source: `func (p *ProcessEventLog) End(err error)`. -/
def ProcessEventLog.End (p : ProcessEventLog) (err : Option GoError) (w : Engine) :
    ProcessEventLog × Engine :=
  let a := { p.activityInput with Timestamp := Now w }
  let a := match err with
    | some e => { a with Status := Failed, Log := e.Error }
    | none => { a with Status := Finished }
  let r := ExecuteActivity ProcessEventActivityName (ActivityInput.processEvent a) w
  let w := match r.1 with
    | some e => Warnf ("failed to log process event end: " ++ e.Error) r.2
    | none => r.2
  ({ activityInput := a }, w)

/-- Source: `func NewProcessEvent(ctx workflow.Context, activityName string) ProcessEventLog`.
The composite literal leaves `Log` out: it is "". -/
def NewProcessEvent (activityName : String) (w : Engine) : ProcessEventLog × Engine :=
  let winfo := GetInfo w
  let activityInput : ProcessEventActivityInput :=
    { ProcessID := winfo.WorkflowExecution.ID
      Type_ := activityName
      Timestamp := Now w
      Status := Running
      Log := "" }
  let r := ExecuteActivity ProcessEventActivityName (ActivityInput.processEvent activityInput) w
  let w := match r.1 with
    | some e => Warnf ("failed to log process event: " ++ e.Error) r.2
    | none => r.2
  ({ activityInput := activityInput }, w)

end process

namespace activty

/-- Source: `type Type string` (reserved word in Lean, hence the underscore). -/
structure Type_ where
  val : String
deriving DecidableEq, Repr

/-- Source: `type Status string`. -/
structure Status where
  val : String
deriving DecidableEq, Repr

/-- Source: `ClusterUpgrade Type = "cluster-upgrade"`. -/
def ClusterUpgrade : Type_ := ⟨"cluster-upgrade"⟩
/-- Source: `Running Status = "running"`. -/
def Running : Status := ⟨"running"⟩
/-- Source: `Failed Status = "failed"`. -/
def Failed : Status := ⟨"failed"⟩
/-- Source: `Finished Status = "finished"`. -/
def Finished : Status := ⟨"finished"⟩

/-- Source: `type ProcessLogActivityInput struct`. -/
structure ProcessLogActivityInput where
  ID : String
  ParentID : String
  OrgID : Int
  Name : String
  Type_ : activty.Type_
  ResourceID : String
  Status : activty.Status
  StartedAt : Time
  FinishedAt : Option Time
deriving DecidableEq, Repr

/-- Source: `type ProcessEventActivityInput struct`. -/
structure ProcessEventActivityInput where
  ProcessID : String
  Name : String
  Log : String
  Status : activty.Status
  Timestamp : Time
deriving DecidableEq, Repr

/-- Source: `type ProcessLogActivity struct { service process.Service }`. -/
structure ProcessLogActivity (σ ι : Type) where
  service : process.Service σ ι

/-- Source: `func NewProcessLogActivity(service process.Service) ProcessLogActivity`. -/
def NewProcessLogActivity {σ ι : Type} (service : process.Service σ ι) : ProcessLogActivity σ ι :=
  { service := service }

/-- Source: `func (a ProcessLogActivity) ExecuteProcessLog(ctx, input) (err error)`. -/
def ProcessLogActivity.ExecuteProcessLog {σ ι : Type} (a : ProcessLogActivity σ ι)
    (input : ProcessLogActivityInput) (s : σ) : Option GoError × σ :=
  let r := a.service.LogProcess
    { Id := input.ID
      ParentId := input.ParentID
      OrgId := input.OrgID
      Name := input.Name
      Type_ := input.Type_.val
      ResourceId := input.ResourceID
      Status := process.ProcessStatus.mk input.Status.val
      StartedAt := input.StartedAt
      FinishedAt := input.FinishedAt } s
  (r.1.2, r.2)

/-- Source: `func (a ProcessLogActivity) ExecuteProcessEvent(ctx, input) (err error)`. -/
def ProcessLogActivity.ExecuteProcessEvent {σ ι : Type} (a : ProcessLogActivity σ ι)
    (input : ProcessEventActivityInput) (s : σ) : Option GoError × σ :=
  let r := a.service.LogProcessEvent
    { ProcessId := input.ProcessID
      Name := input.Name
      Log := input.Log
      Status := process.ProcessStatus.mk input.Status.val
      Timestamp := input.Timestamp } s
  (r.1.2, r.2)

end activty

/-! ## Workflow code calling the recorders -/

namespace process

open workflow

/-- One action of workflow code: a recorder call, or other work at which the
workflow blocks `n` times (the deterministic clock may move at each).  `End`
calls name their recorder by its position among those opened so far. -/
inductive Call where
  | NewProcessLog (orgID : Nat) (resourceID : String)
  | ProcessLogEnd (i : Nat) (err : Option GoError)
  | NewProcessEvent (activityName : String)
  | ProcessEventLogEnd (i : Nat) (err : Option GoError)
  | block (n : Nat)
deriving DecidableEq, Repr

/-- State of a workflow run: the engine and the recorders the workflow holds. -/
structure Run where
  engine : Engine
  logs : List ProcessLog
  events : List ProcessEventLog

/-- A run that has made no call yet. -/
def Run.start (info : WorkflowInfo) (clock : Nat → Time) (outcome : Nat → Option GoError) : Run :=
  { engine := Engine.start info clock outcome, logs := [], events := [] }

/-- Effect of one call.  An `End` on a recorder that was never opened is not a
call a program can make and leaves the run as it is. -/
def Run.call (r : Run) : Call → Run
  | Call.NewProcessLog orgID resourceID =>
      let x := NewProcessLog orgID resourceID r.engine
      { r with engine := x.2, logs := r.logs ++ [x.1] }
  | Call.ProcessLogEnd i err =>
      match r.logs[i]? with
      | some p =>
          let x := p.End err r.engine
          { r with engine := x.2, logs := r.logs.set i x.1 }
      | none => r
  | Call.NewProcessEvent activityName =>
      let x := NewProcessEvent activityName r.engine
      { r with engine := x.2, events := r.events ++ [x.1] }
  | Call.ProcessEventLogEnd i err =>
      match r.events[i]? with
      | some p =>
          let x := p.End err r.engine
          { r with engine := x.2, events := r.events.set i x.1 }
      | none => r
  | Call.block n => { r with engine := { r.engine with tick := r.engine.tick + n } }

/-- Effect of a sequence of calls, in program order. -/
def Run.calls (r : Run) (cs : List Call) : Run := cs.foldl Run.call r

/-- The inputs dispatched under the name "process-event", in dispatch order. -/
def eventInputs : List (String × ActivityInput) → List ProcessEventActivityInput
  | [] => []
  | (name, ActivityInput.processEvent a) :: rest =>
      if name = ProcessEventActivityName then a :: eventInputs rest else eventInputs rest
  | (_, ActivityInput.processLog _) :: rest => eventInputs rest

/-- The record invariant of the spec: the status is one of the three values and
`FinishedAt` is set exactly when the status is not `Running`. -/
def ProcessLogActivityInput.WellFormed (a : ProcessLogActivityInput) : Prop :=
  (a.Status = Running ∨ a.Status = Failed ∨ a.Status = Finished) ∧
    (a.FinishedAt ≠ none ↔ a.Status ≠ Running)

instance (a : ProcessLogActivityInput) : Decidable a.WellFormed := by
  unfold ProcessLogActivityInput.WellFormed; infer_instance

end process

/-- The inputs dispatched under the name "process-log", in dispatch order. -/
def process.logInputs : List (String × workflow.ActivityInput) → List process.ProcessLogActivityInput
  | [] => []
  | (name, workflow.ActivityInput.processLog a) :: rest =>
      if name = process.ProcessLogActivityName then a :: process.logInputs rest else process.logInputs rest
  | (_, workflow.ActivityInput.processEvent _) :: rest => process.logInputs rest

/-! ## Concrete inputs -/

namespace Sample

open workflow process

/-- A root execution: no parent. -/
def rootInfo : WorkflowInfo := ⟨⟨"wf-1", "run-1"⟩, none, ⟨"create-cluster"⟩⟩

/-- A child execution of `wf-1`. -/
def childInfo : WorkflowInfo := ⟨⟨"wf-2", "run-2"⟩, some ⟨"wf-1", "run-1"⟩, ⟨"create-node-pool"⟩⟩

/-- A clock that moves by ten units at every blocking point. -/
def clock : Nat → Time := fun n => 100 + 10 * (n : Int)

/-- An engine on which every dispatch fails with a transient error. -/
def failing : Nat → Option GoError := fun _ => some ⟨0, "transient"⟩

/-- An engine on which every dispatch succeeds. -/
def succeeding : Nat → Option GoError := fun _ => none

/-- The error of scenario B. -/
def stackExists : GoError := ⟨1, "stack already exists"⟩

/-- A service stub that always errors; its state counts the calls. -/
def erroring : Service Nat String :=
  { LogProcess := fun p n => ((p.Id, some ⟨2, "storage down"⟩), n + 1)
    LogProcessEvent := fun e n => ((e.ProcessId, some ⟨2, "storage down"⟩), n + 1) }

/-- A process recorder opened for organization 7 and closed with an error. -/
def failedLog : ProcessLog × Engine :=
  (NewProcessLog 7 "cluster-42" (Engine.start rootInfo clock succeeding)).1.End (some stackExists)
    (NewProcessLog 7 "cluster-42" (Engine.start rootInfo clock succeeding)).2

/-- An event recorder opened for the step "create-worker-pool" and closed with nil. -/
def finishedEvent : ProcessEventLog × Engine :=
  (NewProcessEvent "create-worker-pool" (Engine.start rootInfo clock succeeding)).1.End none
    (NewProcessEvent "create-worker-pool" (Engine.start rootInfo clock succeeding)).2

end Sample

/-! ## Theorems -/

section Frame

open workflow process

/-- What the engine's logger receives for a dispatch verdict: one line, built
from the prefix and the error text, when the verdict is an error. -/
theorem warn_match (w : Engine) (v : Option GoError) (pre : String) :
    (match v with
      | some e => Warnf (pre ++ e.Error) w
      | none => w) =
    { w with warnings := w.warnings ++
        (match v with
          | some e => [pre ++ e.Error]
          | none => []) } := by
  cases v
  · simp
  · rfl

/-- Engine state after `NewProcessLog`. -/
theorem NewProcessLog_engine (orgID : Nat) (resourceID : String) (w : Engine) :
    (NewProcessLog orgID resourceID w).2 =
      { w with
        tick := w.tick + 1
        dispatched := w.dispatched ++
          [(ProcessLogActivityName,
            ActivityInput.processLog (NewProcessLog orgID resourceID w).1.activityInput)]
        warnings := w.warnings ++
          (match w.outcome w.tick with
            | some e => ["failed to log process: " ++ e.Error]
            | none => []) } := by
  simp only [NewProcessLog, ExecuteActivity, warn_match]

/-- Engine state after `ProcessLog.End`. -/
theorem ProcessLog_End_engine (p : ProcessLog) (err : Option GoError) (w : Engine) :
    (p.End err w).2 =
      { w with
        tick := w.tick + 1
        dispatched := w.dispatched ++
          [(ProcessLogActivityName, ActivityInput.processLog (p.End err w).1.activityInput)]
        warnings := w.warnings ++
          (match w.outcome w.tick with
            | some e => ["failed to log process end: " ++ e.Error]
            | none => []) } := by
  simp only [ProcessLog.End, ExecuteActivity, warn_match]

/-- Engine state after `NewProcessEvent`. -/
theorem NewProcessEvent_engine (activityName : String) (w : Engine) :
    (NewProcessEvent activityName w).2 =
      { w with
        tick := w.tick + 1
        dispatched := w.dispatched ++
          [(ProcessEventActivityName,
            ActivityInput.processEvent (NewProcessEvent activityName w).1.activityInput)]
        warnings := w.warnings ++
          (match w.outcome w.tick with
            | some e => ["failed to log process event: " ++ e.Error]
            | none => []) } := by
  simp only [NewProcessEvent, ExecuteActivity, warn_match]

/-- Engine state after `ProcessEventLog.End`. -/
theorem ProcessEventLog_End_engine (p : ProcessEventLog) (err : Option GoError) (w : Engine) :
    (p.End err w).2 =
      { w with
        tick := w.tick + 1
        dispatched := w.dispatched ++
          [(ProcessEventActivityName, ActivityInput.processEvent (p.End err w).1.activityInput)]
        warnings := w.warnings ++
          (match w.outcome w.tick with
            | some e => ["failed to log process event end: " ++ e.Error]
            | none => []) } := by
  simp only [ProcessEventLog.End, ExecuteActivity, warn_match]

/-- The "process-log" inputs of a concatenation. -/
theorem logInputs_append (xs ys : List (String × ActivityInput)) :
    logInputs (xs ++ ys) = logInputs xs ++ logInputs ys := by
  induction xs with
  | nil => rfl
  | cons x xs ih =>
    obtain ⟨name, input⟩ := x
    cases input with
    | processLog a =>
      by_cases h : name = ProcessLogActivityName <;> simp [logInputs, h, ih]
    | processEvent a => simp [logInputs, ih]

/-- The "process-event" inputs of a concatenation. -/
theorem eventInputs_append (xs ys : List (String × ActivityInput)) :
    eventInputs (xs ++ ys) = eventInputs xs ++ eventInputs ys := by
  induction xs with
  | nil => rfl
  | cons x xs ih =>
    obtain ⟨name, input⟩ := x
    cases input with
    | processLog a => simp [eventInputs, ih]
    | processEvent a =>
      by_cases h : name = ProcessEventActivityName <;> simp [eventInputs, h, ih]

/-- A property kept by every call is kept by every sequence of calls. -/
theorem Run.calls_induction (P : Run → Prop) (hstep : ∀ r c, P r → P (r.call c))
    (cs : List Call) : ∀ r, P r → P (r.calls cs) := by
  induction cs with
  | nil => intro r h; exact h
  | cons c cs ih => intro r h; exact ih (r.call c) (hstep r c h)

/-- The record `NewProcessLog` builds is well formed. -/
theorem NewProcessLog_wellFormed (orgID : Nat) (resourceID : String) (w : Engine) :
    (NewProcessLog orgID resourceID w).1.activityInput.WellFormed :=
  ⟨Or.inl rfl, by simp [NewProcessLog]⟩

/-- The record `ProcessLog.End` leaves is well formed, whatever it was before. -/
theorem ProcessLog_End_wellFormed (p : ProcessLog) (err : Option GoError) (w : Engine) :
    (p.End err w).1.activityInput.WellFormed := by
  cases err with
  | none => exact ⟨Or.inr (Or.inr rfl), by simp [ProcessLog.End]; decide⟩
  | some e => exact ⟨Or.inr (Or.inl rfl), by simp [ProcessLog.End]; decide⟩

/-- One call adds to the dispatched "process-log" inputs only well-formed records. -/
theorem Run.call_logInputs (r : Run) (c : Call) :
    ∃ l, logInputs (r.call c).engine.dispatched = logInputs r.engine.dispatched ++ l ∧
      ∀ a ∈ l, a.WellFormed := by
  cases c with
  | NewProcessLog orgID resourceID =>
    refine ⟨[(NewProcessLog orgID resourceID r.engine).1.activityInput], ?_, ?_⟩
    · simp [Run.call, NewProcessLog_engine, logInputs_append, logInputs]
    · intro a ha
      rw [List.mem_singleton.1 ha]
      exact NewProcessLog_wellFormed _ _ _
  | ProcessLogEnd i err =>
    cases h : r.logs[i]? with
    | none => exact ⟨[], by simp [Run.call, h], by simp⟩
    | some p =>
      refine ⟨[(p.End err r.engine).1.activityInput], ?_, ?_⟩
      · simp [Run.call, h, ProcessLog_End_engine, logInputs_append, logInputs]
      · intro a ha
        rw [List.mem_singleton.1 ha]
        exact ProcessLog_End_wellFormed _ _ _
  | NewProcessEvent activityName =>
    exact ⟨[], by simp [Run.call, NewProcessEvent_engine, logInputs_append, logInputs], by simp⟩
  | ProcessEventLogEnd i err =>
    cases h : r.events[i]? with
    | none => exact ⟨[], by simp [Run.call, h], by simp⟩
    | some p =>
      exact ⟨[], by simp [Run.call, h, ProcessEventLog_End_engine, logInputs_append, logInputs],
        by simp⟩
  | block n => exact ⟨[], by simp [Run.call], by simp⟩


/-- A call does not touch the clock or the execution info. -/
theorem Run.call_clock (r : Run) (c : Call) :
    (r.call c).engine.clock = r.engine.clock ∧ (r.call c).engine.info = r.engine.info := by
  cases c with
  | NewProcessLog orgID resourceID => simp [Run.call, NewProcessLog_engine]
  | ProcessLogEnd i err =>
    cases h : r.logs[i]? <;> simp [Run.call, h, ProcessLog_End_engine]
  | NewProcessEvent activityName => simp [Run.call, NewProcessEvent_engine]
  | ProcessEventLogEnd i err =>
    cases h : r.events[i]? <;> simp [Run.call, h, ProcessEventLog_End_engine]
  | block n => simp [Run.call]

/-- A call never moves the tick back. -/
theorem Run.call_tick (r : Run) (c : Call) : r.engine.tick ≤ (r.call c).engine.tick := by
  cases c with
  | NewProcessLog orgID resourceID => simp [Run.call, NewProcessLog_engine]
  | ProcessLogEnd i err =>
    cases h : r.logs[i]? <;> simp [Run.call, h, ProcessLog_End_engine]
  | NewProcessEvent activityName => simp [Run.call, NewProcessEvent_engine]
  | ProcessEventLogEnd i err =>
    cases h : r.events[i]? <;> simp [Run.call, h, ProcessEventLog_End_engine]
  | block n => simp [Run.call]

/-- A call adds at most one "process-event" input, stamped with the clock
reading at the call. -/
theorem Run.call_eventInputs (r : Run) (c : Call) :
    eventInputs (r.call c).engine.dispatched = eventInputs r.engine.dispatched ∨
    ∃ a, eventInputs (r.call c).engine.dispatched = eventInputs r.engine.dispatched ++ [a] ∧
      a.Timestamp = Now r.engine := by
  cases c with
  | NewProcessLog orgID resourceID =>
    left; simp [Run.call, NewProcessLog_engine, eventInputs_append, eventInputs]
  | ProcessLogEnd i err =>
    left
    cases h : r.logs[i]? <;>
      simp [Run.call, h, ProcessLog_End_engine, eventInputs_append, eventInputs]
  | NewProcessEvent activityName =>
    right
    exact ⟨(NewProcessEvent activityName r.engine).1.activityInput,
      by simp [Run.call, NewProcessEvent_engine, eventInputs_append, eventInputs], rfl⟩
  | ProcessEventLogEnd i err =>
    cases h : r.events[i]? with
    | none => left; simp [Run.call, h]
    | some p =>
      right
      exact ⟨(p.End err r.engine).1.activityInput,
        by simp [Run.call, h, ProcessEventLog_End_engine, eventInputs_append, eventInputs],
        by cases err <;> rfl⟩
  | block n => left; simp [Run.call]

/-- Along a run on a non-decreasing clock the dispatched event timestamps are
sorted and none exceeds the current clock reading. -/
theorem Run.call_sorted (r : Run) (c : Call) (hclock : Monotone r.engine.clock)
    (hs : List.Pairwise (· ≤ ·) ((eventInputs r.engine.dispatched).map (·.Timestamp)))
    (hb : ∀ a ∈ eventInputs r.engine.dispatched, a.Timestamp ≤ Now r.engine) :
    List.Pairwise (· ≤ ·) ((eventInputs (r.call c).engine.dispatched).map (·.Timestamp)) ∧
    ∀ a ∈ eventInputs (r.call c).engine.dispatched, a.Timestamp ≤ Now (r.call c).engine := by
  have hnow : Now r.engine ≤ Now (r.call c).engine := by
    simp only [Now, (Run.call_clock r c).1]
    exact hclock (Run.call_tick r c)
  rcases Run.call_eventInputs r c with h | ⟨a, h, ha⟩
  · rw [h]
    exact ⟨hs, fun a ha => le_trans (hb a ha) hnow⟩
  · rw [h]
    constructor
    · rw [List.map_append, List.pairwise_append]
      refine ⟨hs, by simp, ?_⟩
      intro x hx y hy
      obtain ⟨b, hb', rfl⟩ := List.mem_map.1 hx
      simp only [List.map_cons, List.map_nil, List.mem_singleton] at hy
      rw [hy, ha]
      exact hb b hb'
    · intro b hb'
      rcases List.mem_append.1 hb' with h1 | h1
      · exact le_trans (hb b h1) hnow
      · rw [List.mem_singleton.1 h1, ha]
        exact hnow

/-- A call keeps every event recorder already held at its position, with its
ProcessID and Type. -/
theorem Run.call_events_kept (r : Run) (c : Call) (i : Nat) (q : ProcessEventLog)
    (hq : r.events[i]? = some q) :
    ∃ q', (r.call c).events[i]? = some q' ∧
      q'.activityInput.ProcessID = q.activityInput.ProcessID ∧
      q'.activityInput.Type_ = q.activityInput.Type_ := by
  cases c with
  | NewProcessLog orgID resourceID => exact ⟨q, by simpa [Run.call] using hq, rfl, rfl⟩
  | ProcessLogEnd j err =>
    cases h : r.logs[j]? <;> exact ⟨q, by simpa [Run.call, h] using hq, rfl, rfl⟩
  | NewProcessEvent activityName =>
    refine ⟨q, ?_, rfl, rfl⟩
    have hi : i < r.events.length := (List.getElem?_eq_some_iff.1 hq).1
    simp [Run.call, List.getElem?_append_left hi, hq]
  | ProcessEventLogEnd j err =>
    cases h : r.events[j]? with
    | none => exact ⟨q, by simpa [Run.call, h] using hq, rfl, rfl⟩
    | some p =>
      by_cases hji : j = i
      · subst hji
        have hi : j < r.events.length := (List.getElem?_eq_some_iff.1 hq).1
        have hpq : p = q := by rw [h] at hq; exact Option.some.inj hq
        refine ⟨(p.End err r.engine).1, ?_, ?_, ?_⟩
        · simp [Run.call, h, hi]
        · rw [hpq]; cases err <;> rfl
        · rw [hpq]; cases err <;> rfl
      · refine ⟨q, ?_, rfl, rfl⟩
        simp [Run.call, h, List.getElem?_set_ne hji, hq]
  | block n => exact ⟨q, by simpa [Run.call] using hq, rfl, rfl⟩


/-- A sequence of calls does not touch the clock and never moves the tick back. -/
theorem Run.calls_clock (r : Run) (cs : List Call) :
    (r.calls cs).engine.clock = r.engine.clock ∧ r.engine.tick ≤ (r.calls cs).engine.tick := by
  refine Run.calls_induction
    (fun r' => r'.engine.clock = r.engine.clock ∧ r.engine.tick ≤ r'.engine.tick) ?_ cs r
    ⟨rfl, le_refl _⟩
  intro r' c h
  exact ⟨(Run.call_clock r' c).1.trans h.1, le_trans h.2 (Run.call_tick r' c)⟩

/-- A sequence of calls keeps every event recorder already held at its
position, with its ProcessID and Type. -/
theorem Run.calls_events_kept (r : Run) (cs : List Call) (i : Nat) (q : ProcessEventLog)
    (hq : r.events[i]? = some q) :
    ∃ q', (r.calls cs).events[i]? = some q' ∧
      q'.activityInput.ProcessID = q.activityInput.ProcessID ∧
      q'.activityInput.Type_ = q.activityInput.Type_ := by
  refine Run.calls_induction
    (fun r' => ∃ q', r'.events[i]? = some q' ∧
      q'.activityInput.ProcessID = q.activityInput.ProcessID ∧
      q'.activityInput.Type_ = q.activityInput.Type_) ?_ cs r ⟨q, hq, rfl, rfl⟩
  rintro r' c ⟨q₁, h₁, hp, ht⟩
  obtain ⟨q₂, h₂, hp₂, ht₂⟩ := Run.call_events_kept r' c i q₁ h₁
  exact ⟨q₂, h₂, hp₂.trans hp, ht₂.trans ht⟩

/-- In a run from the start on a non-decreasing clock, the dispatched event
timestamps are sorted and none exceeds the current clock reading. -/
theorem Run.calls_sorted (info : WorkflowInfo) (clock : Nat → Time) (hclock : Monotone clock)
    (outcome : Nat → Option GoError) (cs : List Call) :
    List.Pairwise (· ≤ ·)
      ((eventInputs ((Run.start info clock outcome).calls cs).engine.dispatched).map
        (·.Timestamp)) := by
  have h := Run.calls_induction
    (fun r => Monotone r.engine.clock ∧
      List.Pairwise (· ≤ ·) ((eventInputs r.engine.dispatched).map (·.Timestamp)) ∧
      ∀ a ∈ eventInputs r.engine.dispatched, a.Timestamp ≤ Now r.engine)
    (fun r c h => ⟨by rw [(Run.call_clock r c).1]; exact h.1,
      Run.call_sorted r c h.1 h.2.1 h.2.2⟩)
    cs (Run.start info clock outcome)
    ⟨hclock, by simp [Run.start, Engine.start, eventInputs],
      by simp [Run.start, Engine.start, eventInputs]⟩
  exact h.2.1


/-- The sample clock is non-decreasing. -/
theorem Sample.clock_monotone : Monotone Sample.clock :=
  fun a b h => by simp [Sample.clock]; omega

/-- Two runs that agree on everything but the engine's verdicts and the
warnings logged still agree so after the same call. -/
theorem Run.call_replay (r r' : Run) (c : Call)
    (hi : r.engine.info = r'.engine.info) (hc : r.engine.clock = r'.engine.clock)
    (ht : r.engine.tick = r'.engine.tick) (hd : r.engine.dispatched = r'.engine.dispatched)
    (hl : r.logs = r'.logs) (he : r.events = r'.events) :
    (r.call c).engine.info = (r'.call c).engine.info ∧
    (r.call c).engine.clock = (r'.call c).engine.clock ∧
    (r.call c).engine.tick = (r'.call c).engine.tick ∧
    (r.call c).engine.dispatched = (r'.call c).engine.dispatched ∧
    (r.call c).logs = (r'.call c).logs ∧ (r.call c).events = (r'.call c).events := by
  obtain ⟨⟨info, clock, outcome, tick, dispatched, warnings⟩, logs, events⟩ := r
  obtain ⟨⟨info', clock', outcome', tick', dispatched', warnings'⟩, logs', events'⟩ := r'
  simp only at hi hc ht hd hl he
  subst hi hc ht hd hl he
  cases c with
  | NewProcessLog orgID resourceID =>
    simp only [Run.call, NewProcessLog_engine]
    exact ⟨trivial, trivial, trivial, rfl, rfl, trivial⟩
  | ProcessLogEnd i err =>
    cases h : logs[i]? with
    | none => simp only [Run.call, h]; exact ⟨trivial, trivial, trivial, trivial, trivial, trivial⟩
    | some p =>
      simp only [Run.call, h, ProcessLog_End_engine]
      refine ⟨trivial, trivial, trivial, ?_, ?_, trivial⟩ <;> cases err <;> rfl
  | NewProcessEvent activityName =>
    simp only [Run.call, NewProcessEvent_engine]
    exact ⟨trivial, trivial, trivial, rfl, trivial, rfl⟩
  | ProcessEventLogEnd i err =>
    cases h : events[i]? with
    | none => simp only [Run.call, h]; exact ⟨trivial, trivial, trivial, trivial, trivial, trivial⟩
    | some p =>
      simp only [Run.call, h, ProcessEventLog_End_engine]
      refine ⟨trivial, trivial, trivial, ?_, trivial, ?_⟩ <;> cases err <;> rfl
  | block n => exact ⟨rfl, rfl, rfl, rfl, rfl, rfl⟩

/-- Two runs that agree on everything but the engine's verdicts and the
warnings logged dispatch the same calls under the same sequence of calls. -/
theorem Run.calls_replay (cs : List Call) : ∀ (r r' : Run),
    r.engine.info = r'.engine.info → r.engine.clock = r'.engine.clock →
    r.engine.tick = r'.engine.tick → r.engine.dispatched = r'.engine.dispatched →
    r.logs = r'.logs → r.events = r'.events →
    (r.calls cs).engine.dispatched = (r'.calls cs).engine.dispatched ∧
    (r.calls cs).logs = (r'.calls cs).logs ∧ (r.calls cs).events = (r'.calls cs).events := by
  induction cs with
  | nil => intro r r' _ _ _ hd hl he; exact ⟨hd, hl, he⟩
  | cons c cs ih =>
    intro r r' hi hc ht hd hl he
    obtain ⟨h1, h2, h3, h4, h5, h6⟩ := Run.call_replay r r' c hi hc ht hd hl he
    exact ih (r.call c) (r'.call c) h1 h2 h3 h4 h5 h6

end Frame

section Claims

open workflow process

/-- C1. For both recorders, whatever the record and the engine state: `End(nil)`
leaves Status = Finished and the Log as it was, `End(e)` with `e` non-nil leaves
Status = Failed and Log = `e.Error()`; the call dispatches exactly the record it
leaves in the recorder, so the dispatched record has the same Status and Log. -/
theorem End_sets_status_and_log (w : Engine) :
    (∀ p : ProcessLog,
      ((p.End none w).1.activityInput.Status = Finished ∧
        (p.End none w).1.activityInput.Log = p.activityInput.Log ∧
        (p.End none w).2.dispatched = w.dispatched ++
          [(ProcessLogActivityName, ActivityInput.processLog (p.End none w).1.activityInput)]) ∧
      ∀ e : GoError,
        (p.End (some e) w).1.activityInput.Status = Failed ∧
        (p.End (some e) w).1.activityInput.Log = e.Error ∧
        (p.End (some e) w).2.dispatched = w.dispatched ++
          [(ProcessLogActivityName, ActivityInput.processLog (p.End (some e) w).1.activityInput)]) ∧
    (∀ p : ProcessEventLog,
      ((p.End none w).1.activityInput.Status = Finished ∧
        (p.End none w).1.activityInput.Log = p.activityInput.Log ∧
        (p.End none w).2.dispatched = w.dispatched ++
          [(ProcessEventActivityName, ActivityInput.processEvent (p.End none w).1.activityInput)]) ∧
      ∀ e : GoError,
        (p.End (some e) w).1.activityInput.Status = Failed ∧
        (p.End (some e) w).1.activityInput.Log = e.Error ∧
        (p.End (some e) w).2.dispatched = w.dispatched ++
          [(ProcessEventActivityName,
            ActivityInput.processEvent (p.End (some e) w).1.activityInput)]) := by
  refine ⟨fun p => ⟨⟨rfl, rfl, ?_⟩, fun e => ⟨rfl, rfl, ?_⟩⟩,
    fun p => ⟨⟨rfl, rfl, ?_⟩, fun e => ⟨rfl, rfl, ?_⟩⟩⟩
  · rw [ProcessLog_End_engine]
  · rw [ProcessLog_End_engine]
  · rw [ProcessEventLog_End_engine]
  · rw [ProcessEventLog_End_engine]

/-- C2. On an engine whose deterministic clock is non-decreasing, for every
organization ID and resource ID, `NewProcessLog` followed immediately by
`End(nil)` dispatches exactly two calls, both named "process-log".  Their
inputs agree on ID (the engine's execution id), ParentID, OrgID, Type,
ResourceID and StartedAt; the first is Running with StartedAt = T0, the clock
reading at open, and FinishedAt nil; the second is Finished with
FinishedAt = T1, the clock reading at close, and T0 ≤ T1. -/
theorem open_then_close_dispatches_two (w : Engine) (hclock : Monotone w.clock)
    (orgID : Nat) (resourceID : String) :
    let opened := NewProcessLog orgID resourceID w
    let closed := opened.1.End none opened.2
    let first := opened.1.activityInput
    let second := closed.1.activityInput
    let T0 := Now w
    let T1 := Now opened.2
    closed.2.dispatched = w.dispatched ++
        [("process-log", ActivityInput.processLog first),
         ("process-log", ActivityInput.processLog second)] ∧
      first.ID = (GetInfo w).WorkflowExecution.ID ∧
      second.ID = first.ID ∧
      second.ParentID = first.ParentID ∧
      second.OrgID = first.OrgID ∧
      second.Type_ = first.Type_ ∧
      second.ResourceID = first.ResourceID ∧
      second.StartedAt = first.StartedAt ∧
      first.Status = Running ∧ first.StartedAt = T0 ∧ first.FinishedAt = none ∧
      second.Status = Finished ∧ second.FinishedAt = some T1 ∧ T0 ≤ T1 := by
  intro opened closed first second T0 T1
  refine ⟨?_, rfl, rfl, rfl, rfl, rfl, rfl, rfl, rfl, rfl, rfl, rfl, rfl, ?_⟩
  · simp only [closed, opened, first, second, ProcessLog_End_engine, NewProcessLog_engine]
    simp [ProcessLogActivityName]
  · simp only [T0, T1, opened, Now, NewProcessLog_engine]
    exact hclock (Nat.le_succ _)

/-- C2 at a concrete input: scenario A of the spec (organization 7, resource
"cluster-42") on a root execution whose dispatches all fail. -/
theorem open_then_close_dispatches_two_witness :
    Monotone (Engine.start Sample.rootInfo Sample.clock Sample.failing).clock ∧
    ((NewProcessLog 7 "cluster-42"
        (Engine.start Sample.rootInfo Sample.clock Sample.failing)).1.End none
      (NewProcessLog 7 "cluster-42"
        (Engine.start Sample.rootInfo Sample.clock Sample.failing)).2).2.dispatched =
      [("process-log", ActivityInput.processLog
          { ID := "wf-1", ParentID := "", OrgID := 7, Type_ := "create-cluster", Log := "",
            ResourceID := "cluster-42", Status := Running, StartedAt := 100,
            FinishedAt := none }),
       ("process-log", ActivityInput.processLog
          { ID := "wf-1", ParentID := "", OrgID := 7, Type_ := "create-cluster", Log := "",
            ResourceID := "cluster-42", Status := Finished, StartedAt := 100,
            FinishedAt := some 110 })] :=
  ⟨Sample.clock_monotone,
   (open_then_close_dispatches_two (Engine.start Sample.rootInfo Sample.clock Sample.failing)
      Sample.clock_monotone 7 "cluster-42").1.trans (by decide)⟩

/-- C3. In every run that starts with no recorder (so that every recorder is one
`NewProcessLog` returned), whatever calls it makes, every record dispatched
under "process-log" has Status in {Running, Failed, Finished} and has FinishedAt
set exactly when its Status is not Running.  This holds of the record
`NewProcessLog` builds and of the record any `End` call leaves. -/
theorem dispatched_process_records_wellFormed (info : WorkflowInfo) (clock : Nat → Time)
    (outcome : Nat → Option GoError) (cs : List Call) :
    (∀ a ∈ logInputs ((Run.start info clock outcome).calls cs).engine.dispatched,
      (a.Status = Running ∨ a.Status = Failed ∨ a.Status = Finished) ∧
        (a.FinishedAt ≠ none ↔ a.Status ≠ Running)) ∧
    (∀ orgID resourceID w, (NewProcessLog orgID resourceID w).1.activityInput.WellFormed) ∧
    (∀ (p : ProcessLog) err w, (p.End err w).1.activityInput.WellFormed) := by
  refine ⟨?_, NewProcessLog_wellFormed, ProcessLog_End_wellFormed⟩
  refine Run.calls_induction
    (fun r => ∀ a ∈ logInputs r.engine.dispatched, a.WellFormed) ?_ cs _ ?_
  · intro r c ih a ha
    obtain ⟨l, hl, hwf⟩ := Run.call_logInputs r c
    rw [hl, List.mem_append] at ha
    exact ha.elim (ih a) (hwf a)
  · intro a ha
    simp [Run.start, Engine.start, logInputs] at ha

/-- C4. Whatever verdict the engine gives on the dispatch, each of the four
recorder operations returns its recorder, and the recorder returned is the same
under any other verdicts: the error reaches the caller nowhere.  The engine
logger receives exactly one new line when the verdict is an error and none when
it is nil. -/
theorem recorder_swallows_dispatch_error (w : Engine) (outcome' : Nat → Option GoError) :
    (∀ orgID resourceID,
      (NewProcessLog orgID resourceID { w with outcome := outcome' }).1 =
          (NewProcessLog orgID resourceID w).1 ∧
        (NewProcessLog orgID resourceID w).2.warnings = w.warnings ++
          (match w.outcome w.tick with
            | some e => ["failed to log process: " ++ e.Error]
            | none => [])) ∧
    (∀ activityName,
      (NewProcessEvent activityName { w with outcome := outcome' }).1 =
          (NewProcessEvent activityName w).1 ∧
        (NewProcessEvent activityName w).2.warnings = w.warnings ++
          (match w.outcome w.tick with
            | some e => ["failed to log process event: " ++ e.Error]
            | none => [])) ∧
    (∀ (p : ProcessLog) err,
      (p.End err { w with outcome := outcome' }).1 = (p.End err w).1 ∧
        (p.End err w).2.warnings = w.warnings ++
          (match w.outcome w.tick with
            | some e => ["failed to log process end: " ++ e.Error]
            | none => [])) ∧
    (∀ (p : ProcessEventLog) err,
      (p.End err { w with outcome := outcome' }).1 = (p.End err w).1 ∧
        (p.End err w).2.warnings = w.warnings ++
          (match w.outcome w.tick with
            | some e => ["failed to log process event end: " ++ e.Error]
            | none => [])) := by
  refine ⟨fun orgID resourceID => ⟨rfl, ?_⟩, fun activityName => ⟨rfl, ?_⟩,
    fun p err => ⟨rfl, ?_⟩, fun p err => ⟨rfl, ?_⟩⟩
  · rw [NewProcessLog_engine]
  · rw [NewProcessEvent_engine]
  · rw [ProcessLog_End_engine]
  · rw [ProcessEventLog_End_engine]

/-- C5. The record `NewProcessLog` builds has ParentID "" when the execution info
has no parent execution and the parent execution's ID when it has one; its ID
is the engine's own execution id and its Type the workflow type name. -/
theorem NewProcessLog_identity (w : Engine) (orgID : Nat) (resourceID : String) :
    ((GetInfo w).ParentWorkflowExecution = none →
      (NewProcessLog orgID resourceID w).1.activityInput.ParentID = "") ∧
    (∀ parent, (GetInfo w).ParentWorkflowExecution = some parent →
      (NewProcessLog orgID resourceID w).1.activityInput.ParentID = parent.ID) ∧
    (NewProcessLog orgID resourceID w).1.activityInput.ID = (GetInfo w).WorkflowExecution.ID ∧
    (NewProcessLog orgID resourceID w).1.activityInput.Type_ = (GetInfo w).WorkflowType.Name := by
  refine ⟨fun h => ?_, fun parent h => ?_, rfl, rfl⟩
  · simp [NewProcessLog, h]
  · simp [NewProcessLog, h]

/-- C5 at concrete inputs: a root execution and a child of "wf-1". -/
theorem NewProcessLog_identity_witness :
    (NewProcessLog 7 "cluster-42"
      (Engine.start Sample.rootInfo Sample.clock Sample.succeeding)).1.activityInput.ParentID = "" ∧
    (NewProcessLog 7 "cluster-42"
      (Engine.start Sample.childInfo Sample.clock Sample.succeeding)).1.activityInput.ParentID
        = "wf-1" :=
  ⟨(NewProcessLog_identity (Engine.start Sample.rootInfo Sample.clock Sample.succeeding)
      7 "cluster-42").1 rfl,
   (NewProcessLog_identity (Engine.start Sample.childInfo Sample.clock Sample.succeeding)
      7 "cluster-42").2.1 ⟨"wf-1", "run-1"⟩ rfl⟩

/-- C4 at a concrete input: scenario C of the spec.  The dispatch of
"process-log" fails, `NewProcessLog` returns its recorder and one warning is
logged; when the dispatch succeeds none is. -/
theorem recorder_swallows_dispatch_error_witness :
    (NewProcessLog 7 "cluster-42"
        (Engine.start Sample.rootInfo Sample.clock Sample.failing)).2.warnings
      = ["failed to log process: transient"] ∧
    (NewProcessLog 7 "cluster-42"
        (Engine.start Sample.rootInfo Sample.clock Sample.succeeding)).2.warnings = [] :=
  ⟨((recorder_swallows_dispatch_error
      (Engine.start Sample.rootInfo Sample.clock Sample.failing) Sample.succeeding).1
        7 "cluster-42").2.trans (by decide),
   ((recorder_swallows_dispatch_error
      (Engine.start Sample.rootInfo Sample.clock Sample.succeeding) Sample.failing).1
        7 "cluster-42").2.trans (by decide)⟩

/-- C10. The OrgID `NewProcessLog` records is the 32-bit two's-complement
truncation of the organization ID: it lies in [-2^31, 2^31) and is congruent
to orgID modulo 2^32.  It equals orgID exactly when orgID ≤ 2^31 - 1, differs
from it when orgID ≥ 2^31, and two organization IDs that agree modulo 2^32
are recorded with the same OrgID. -/
theorem NewProcessLog_OrgID_truncates (w : Engine) (orgID : Nat) (resourceID : String) :
    (NewProcessLog orgID resourceID w).1.activityInput.OrgID = int32 orgID ∧
    -(2 : Int) ^ 31 ≤ (NewProcessLog orgID resourceID w).1.activityInput.OrgID ∧
    (NewProcessLog orgID resourceID w).1.activityInput.OrgID < (2 : Int) ^ 31 ∧
    ((orgID : Int) - (NewProcessLog orgID resourceID w).1.activityInput.OrgID) % (2 : Int) ^ 32
      = 0 ∧
    ((NewProcessLog orgID resourceID w).1.activityInput.OrgID = (orgID : Int)
      ↔ orgID ≤ 2 ^ 31 - 1) ∧
    (2 ^ 31 ≤ orgID →
      (NewProcessLog orgID resourceID w).1.activityInput.OrgID ≠ (orgID : Int)) ∧
    (∀ orgID' : Nat, orgID' % 2 ^ 32 = orgID % 2 ^ 32 →
      (NewProcessLog orgID' resourceID w).1.activityInput.OrgID =
        (NewProcessLog orgID resourceID w).1.activityInput.OrgID) := by
  have h : (NewProcessLog orgID resourceID w).1.activityInput.OrgID = int32 orgID := rfl
  rw [h]
  refine ⟨rfl, ?_, ?_, ?_, ?_, ?_, ?_⟩
  · unfold int32; split <;> omega
  · unfold int32; split <;> omega
  · unfold int32; split <;> omega
  · unfold int32; split <;> omega
  · unfold int32; split <;> omega
  · intro orgID' h'
    show int32 orgID' = int32 orgID
    unfold int32
    rw [h']

/-- C10 at concrete inputs: 2^31 is recorded as -2^31, and the distinct
organization IDs 5 and 2^32 + 5 are both recorded as 5. -/
theorem NewProcessLog_OrgID_truncates_witness :
    (NewProcessLog (2 ^ 31) "cluster-42"
      (Engine.start Sample.rootInfo Sample.clock Sample.succeeding)).1.activityInput.OrgID
        ≠ ((2 ^ 31 : Nat) : Int) ∧
    (NewProcessLog (2 ^ 32 + 5) "cluster-42"
      (Engine.start Sample.rootInfo Sample.clock Sample.succeeding)).1.activityInput.OrgID =
    (NewProcessLog 5 "cluster-42"
      (Engine.start Sample.rootInfo Sample.clock Sample.succeeding)).1.activityInput.OrgID :=
  ⟨(NewProcessLog_OrgID_truncates (Engine.start Sample.rootInfo Sample.clock Sample.succeeding)
      (2 ^ 31) "cluster-42").2.2.2.2.2.1 (by decide),
   (NewProcessLog_OrgID_truncates (Engine.start Sample.rootInfo Sample.clock Sample.succeeding)
      5 "cluster-42").2.2.2.2.2.2 (2 ^ 32 + 5) (by decide)⟩

/-- C6. For every service, service state and input, each of the four logging
activities (ExecuteProcessLog and ExecuteProcessEvent of package `process` and
of package `activty`) makes exactly one service call, LogProcess respectively
LogProcessEvent, on an entity whose fields equal the input's fields (Status and
Type converted by type only, a field the input lacks left at its zero value),
and returns the error of that call, nil or not, dropping the identifier.  The
recording stub shows the calls made: one is appended to those received before. -/
theorem activities_forward_to_service {σ ι : Type} (svc : Service σ ι) (s : σ)
    (calls : List ServiceCall) :
    (∀ input : process.ProcessLogActivityInput, ∃ ent : Process,
      (ent.Id = input.ID ∧ ent.ParentId = input.ParentID ∧ ent.OrgId = input.OrgID ∧
        ent.Type_ = input.Type_ ∧ ent.Log = input.Log ∧ ent.ResourceId = input.ResourceID ∧
        ent.Status.val = input.Status.val ∧ ent.StartedAt = input.StartedAt ∧
        ent.FinishedAt = input.FinishedAt ∧ ent.Name = "") ∧
      (process.NewProcessLogActivity svc).ExecuteProcessLog input s =
        ((svc.LogProcess ent s).1.2, (svc.LogProcess ent s).2) ∧
      (process.NewProcessLogActivity svc.recording).ExecuteProcessLog input (s, calls) =
        ((svc.LogProcess ent s).1.2,
          ((svc.LogProcess ent s).2, calls ++ [ServiceCall.LogProcess ent]))) ∧
    (∀ input : process.ProcessEventActivityInput, ∃ ent : ProcessEvent,
      (ent.ProcessId = input.ProcessID ∧ ent.Type_ = input.Type_ ∧ ent.Log = input.Log ∧
        ent.Status.val = input.Status.val ∧ ent.Timestamp = input.Timestamp ∧ ent.Name = "") ∧
      (process.NewProcessLogActivity svc).ExecuteProcessEvent input s =
        ((svc.LogProcessEvent ent s).1.2, (svc.LogProcessEvent ent s).2) ∧
      (process.NewProcessLogActivity svc.recording).ExecuteProcessEvent input (s, calls) =
        ((svc.LogProcessEvent ent s).1.2,
          ((svc.LogProcessEvent ent s).2, calls ++ [ServiceCall.LogProcessEvent ent]))) ∧
    (∀ input : activty.ProcessLogActivityInput, ∃ ent : Process,
      (ent.Id = input.ID ∧ ent.ParentId = input.ParentID ∧ ent.OrgId = input.OrgID ∧
        ent.Name = input.Name ∧ ent.Type_ = input.Type_.val ∧
        ent.ResourceId = input.ResourceID ∧ ent.Status.val = input.Status.val ∧
        ent.StartedAt = input.StartedAt ∧ ent.FinishedAt = input.FinishedAt ∧ ent.Log = "") ∧
      (activty.NewProcessLogActivity svc).ExecuteProcessLog input s =
        ((svc.LogProcess ent s).1.2, (svc.LogProcess ent s).2) ∧
      (activty.NewProcessLogActivity svc.recording).ExecuteProcessLog input (s, calls) =
        ((svc.LogProcess ent s).1.2,
          ((svc.LogProcess ent s).2, calls ++ [ServiceCall.LogProcess ent]))) ∧
    (∀ input : activty.ProcessEventActivityInput, ∃ ent : ProcessEvent,
      (ent.ProcessId = input.ProcessID ∧ ent.Name = input.Name ∧ ent.Log = input.Log ∧
        ent.Status.val = input.Status.val ∧ ent.Timestamp = input.Timestamp ∧ ent.Type_ = "") ∧
      (activty.NewProcessLogActivity svc).ExecuteProcessEvent input s =
        ((svc.LogProcessEvent ent s).1.2, (svc.LogProcessEvent ent s).2) ∧
      (activty.NewProcessLogActivity svc.recording).ExecuteProcessEvent input (s, calls) =
        ((svc.LogProcessEvent ent s).1.2,
          ((svc.LogProcessEvent ent s).2, calls ++ [ServiceCall.LogProcessEvent ent]))) := by
  refine ⟨fun input => ⟨_, ⟨rfl, rfl, rfl, rfl, rfl, rfl, rfl, rfl, rfl, rfl⟩, rfl, rfl⟩,
    fun input => ⟨_, ⟨rfl, rfl, rfl, rfl, rfl, rfl⟩, rfl, rfl⟩,
    fun input => ⟨_, ⟨rfl, rfl, rfl, rfl, rfl, rfl, rfl, rfl, rfl, rfl⟩, rfl, rfl⟩,
    fun input => ⟨_, ⟨rfl, rfl, rfl, rfl, rfl, rfl⟩, rfl, rfl⟩⟩

/-- C7, as stated, fails.  A process recorder closed with an error is Failed, and
a further `End(nil)` makes it Finished; an event recorder closed with nil is
Finished, and a further `End` with an error makes it Failed. -/
theorem terminal_status_is_rewritten :
    Sample.failedLog.1.activityInput.Status = Failed ∧
    (Sample.failedLog.1.End none Sample.failedLog.2).1.activityInput.Status = Finished ∧
    (Sample.failedLog.1.End none Sample.failedLog.2).1.activityInput.Status
      ≠ Sample.failedLog.1.activityInput.Status ∧
    Sample.finishedEvent.1.activityInput.Status = Finished ∧
    (Sample.finishedEvent.1.End (some Sample.stackExists)
      Sample.finishedEvent.2).1.activityInput.Status = Failed ∧
    (Sample.finishedEvent.1.End (some Sample.stackExists)
      Sample.finishedEvent.2).1.activityInput.Status
      ≠ Sample.finishedEvent.1.activityInput.Status := by
  decide

/-- C7, amended.  For both recorders the Status after `End` is decided by the
argument alone: Finished for nil, Failed for a non-nil error, whatever the
Status before.  So `End` leaves the Status as it was exactly when the argument
is nil on a Finished record or non-nil on a Failed record; it never yields
Running, and from Running it goes to Finished or to Failed only. -/
theorem End_status_decided_by_argument (w : Engine) :
    (∀ (p : ProcessLog) (err : Option GoError),
      (p.End err w).1.activityInput.Status = (if err = none then Finished else Failed) ∧
      ((p.End err w).1.activityInput.Status = p.activityInput.Status ↔
        (err = none ∧ p.activityInput.Status = Finished) ∨
        (err ≠ none ∧ p.activityInput.Status = Failed)) ∧
      (p.End err w).1.activityInput.Status ≠ Running) ∧
    (∀ (p : ProcessEventLog) (err : Option GoError),
      (p.End err w).1.activityInput.Status = (if err = none then Finished else Failed) ∧
      ((p.End err w).1.activityInput.Status = p.activityInput.Status ↔
        (err = none ∧ p.activityInput.Status = Finished) ∨
        (err ≠ none ∧ p.activityInput.Status = Failed)) ∧
      (p.End err w).1.activityInput.Status ≠ Running) := by
  have hFR : Failed ≠ Running := by decide
  have hNR : Finished ≠ Running := by decide
  constructor
  · intro p err
    have hs : (p.End err w).1.activityInput.Status = (if err = none then Finished else Failed) := by
      cases err <;> rfl
    rw [hs]
    refine ⟨rfl, ?_, ?_⟩
    · cases err with
      | none => simp [eq_comm]
      | some e => simp [eq_comm]
    · cases err with
      | none => simpa using hNR
      | some e => simpa using hFR
  · intro p err
    have hs : (p.End err w).1.activityInput.Status = (if err = none then Finished else Failed) := by
      cases err <;> rfl
    rw [hs]
    refine ⟨rfl, ?_, ?_⟩
    · cases err with
      | none => simp [eq_comm]
      | some e => simp [eq_comm]
    · cases err with
      | none => simpa using hNR
      | some e => simpa using hFR


/-- C8. Each "process-event" dispatch carries as Timestamp the clock reading
taken by the call that makes it.  So in every run on a non-decreasing
deterministic clock, whatever calls it makes, the Timestamps of the dispatched
event records are non-decreasing in dispatch order; and when a recorder opened
by `NewProcessEvent` is closed after any further calls, the record `End` sends
has a Timestamp not before that of the record sent at open, with the same
ProcessID and Type. -/
theorem event_timestamps_nondecreasing (info : WorkflowInfo) (clock : Nat → Time)
    (hclock : Monotone clock) (outcome : Nat → Option GoError) :
    (∀ activityName w,
      (NewProcessEvent activityName w).1.activityInput.Timestamp = Now w ∧
      (NewProcessEvent activityName w).2.dispatched = w.dispatched ++
        [("process-event",
          ActivityInput.processEvent (NewProcessEvent activityName w).1.activityInput)]) ∧
    (∀ (p : ProcessEventLog) err w,
      (p.End err w).1.activityInput.Timestamp = Now w ∧
      (p.End err w).2.dispatched = w.dispatched ++
        [("process-event", ActivityInput.processEvent (p.End err w).1.activityInput)]) ∧
    (∀ cs, List.Pairwise (· ≤ ·)
      ((eventInputs ((Run.start info clock outcome).calls cs).engine.dispatched).map
        (·.Timestamp))) ∧
    (∀ cs₁ activityName cs₂ err,
      let r₁ := (Run.start info clock outcome).calls cs₁
      let r₂ := r₁.call (Call.NewProcessEvent activityName)
      let r₃ := r₂.calls cs₂
      let r₄ := r₃.call (Call.ProcessEventLogEnd r₁.events.length err)
      ∃ a b,
        r₂.engine.dispatched = r₁.engine.dispatched ++
          [("process-event", ActivityInput.processEvent a)] ∧
        r₄.engine.dispatched = r₃.engine.dispatched ++
          [("process-event", ActivityInput.processEvent b)] ∧
        a.Timestamp ≤ b.Timestamp ∧ b.ProcessID = a.ProcessID ∧ b.Type_ = a.Type_) := by
  refine ⟨fun activityName w => ⟨rfl, ?_⟩, fun p err w => ⟨by cases err <;> rfl, ?_⟩,
    Run.calls_sorted info clock hclock outcome, ?_⟩
  · rw [NewProcessEvent_engine]; rfl
  · rw [ProcessEventLog_End_engine]; rfl
  · intro cs₁ activityName cs₂ err r₁ r₂ r₃ r₄
    have hk : r₂.events[r₁.events.length]? = some (NewProcessEvent activityName r₁.engine).1 := by
      simp [r₂, Run.call]
    obtain ⟨q, hq, hp, ht⟩ := Run.calls_events_kept r₂ cs₂ _ _ hk
    have h₁ : r₁.engine.clock = clock := (Run.calls_clock _ cs₁).1
    have h₂ : r₂.engine.clock = clock := (Run.call_clock r₁ _).1.trans h₁
    have h₃ : r₃.engine.clock = clock := (Run.calls_clock r₂ cs₂).1.trans h₂
    have ht₁ : r₁.engine.tick ≤ r₃.engine.tick :=
      le_trans (Run.call_tick r₁ _) (Run.calls_clock r₂ cs₂).2
    refine ⟨(NewProcessEvent activityName r₁.engine).1.activityInput,
      (q.End err r₃.engine).1.activityInput, ?_, ?_, ?_, ?_, ?_⟩
    · simp only [r₂, Run.call, NewProcessEvent_engine]; rfl
    · simp only [r₄, Run.call, hq, ProcessEventLog_End_engine]; rfl
    · have hb : (q.End err r₃.engine).1.activityInput.Timestamp = Now r₃.engine := by
        cases err <;> rfl
      have ha : (NewProcessEvent activityName r₁.engine).1.activityInput.Timestamp
          = Now r₁.engine := rfl
      rw [ha, hb]
      simp only [Now, h₁, h₃]
      exact hclock ht₁
    · have : (q.End err r₃.engine).1.activityInput.ProcessID = q.activityInput.ProcessID := by
        cases err <;> rfl
      rw [this, hp]
    · have : (q.End err r₃.engine).1.activityInput.Type_ = q.activityInput.Type_ := by
        cases err <;> rfl
      rw [this, ht]


/-- C8 at a concrete input: scenario B of the spec.  An event recorder is opened
for "create-worker-pool" and, three blocking points later, closed with the
error "stack already exists": the second record is Failed with that log and a
Timestamp not before the first. -/
theorem event_timestamps_nondecreasing_witness :
    Monotone Sample.clock ∧
    List.Pairwise (· ≤ ·)
      ((eventInputs ((Run.start Sample.rootInfo Sample.clock Sample.succeeding).calls
        [Call.NewProcessEvent "create-worker-pool", Call.block 3,
          Call.ProcessEventLogEnd 0 (some Sample.stackExists)]).engine.dispatched).map
        (·.Timestamp)) ∧
    eventInputs ((Run.start Sample.rootInfo Sample.clock Sample.succeeding).calls
        [Call.NewProcessEvent "create-worker-pool", Call.block 3,
          Call.ProcessEventLogEnd 0 (some Sample.stackExists)]).engine.dispatched =
      [{ ProcessID := "wf-1", Type_ := "create-worker-pool", Log := "", Status := Running,
         Timestamp := 100 },
       { ProcessID := "wf-1", Type_ := "create-worker-pool", Log := "stack already exists",
         Status := Failed, Timestamp := 140 }] :=
  ⟨Sample.clock_monotone,
   (event_timestamps_nondecreasing Sample.rootInfo Sample.clock Sample.clock_monotone
      Sample.succeeding).2.2.1 _,
   by decide⟩

/-- C9. Replay determinism: two runs of the same sequence of recorder calls
under the same execution info and the same deterministic clock dispatch the
same sequence of (activity name, activity input) pairs, whatever verdicts the
engine gives on the dispatches in either run; the recorders held agree too. -/
theorem replay_dispatches_identical (info : WorkflowInfo) (clock : Nat → Time)
    (outcome₁ outcome₂ : Nat → Option GoError) (cs : List Call) :
    ((Run.start info clock outcome₁).calls cs).engine.dispatched =
      ((Run.start info clock outcome₂).calls cs).engine.dispatched ∧
    ((Run.start info clock outcome₁).calls cs).logs =
      ((Run.start info clock outcome₂).calls cs).logs ∧
    ((Run.start info clock outcome₁).calls cs).events =
      ((Run.start info clock outcome₂).calls cs).events :=
  Run.calls_replay cs _ _ rfl rfl rfl rfl rfl rfl

end Claims
